import Mathlib

/-!
Verification of the diagnostic-normalization core of the SublimeLinter Flow
adapter (`linter.py`).

The Python code is dynamically typed, so the embedding works over a dynamic
value type `JVal` (JSON values / Python objects), with every fallible Python
operation (`dict.get` on a non-dict, subscripts, iteration, arithmetic on
non-numbers, ...) returning `Except PyErr`.  `find_errors` is embedded
end-to-end, starting from the raw output string: a small JSON parser stands
in for `json.loads` (restricted to the integer-only JSON subset the checker
emits; a parse failure models the `ValueError` that the code catches).

A typed layer (`FlowMessage`, `RawError`, `CovLoc`, ...) mirrors the data
model of the checker's report format; its values are *encoded* into `JVal`
(`encMsg`, `encErr`, ...) so that universally quantified claims range over
well-formed reports while the functions under test stay the single faithful
dynamic embedding.
-/

/-- A JSON value / dynamically typed Python value. -/
inductive JVal where
  | null
  | bool (b : Bool)
  | num (n : Int)
  | str (s : String)
  | arr (xs : List JVal)
  | obj (kvs : List (String × JVal))
deriving Repr

mutual
/-- Structural size of a dynamic value (used as recursion fuel for the
`extra`-tree traversal, which no value can exhaust). -/
def jsize : JVal → Nat
  | .null => 1
  | .bool _ => 1
  | .num _ => 1
  | .str _ => 1
  | .arr xs => 1 + jsizeL xs
  | .obj kvs => 1 + jsizeO kvs

/-- Size of a list of dynamic values. -/
def jsizeL : List JVal → Nat
  | [] => 0
  | x :: xs => 1 + jsize x + jsizeL xs

/-- Size of a key-value list. -/
def jsizeO : List (String × JVal) → Nat
  | [] => 0
  | (_, v) :: kvs => 1 + jsize v + jsizeO kvs
end

/-- The Python exceptions the embedded code can raise. -/
inductive PyErr where
  | valueError
  | typeError
  | attributeError
  | indexError
  | keyError
  | recursionError
deriving DecidableEq, Repr

/-- Python truthiness of a value. -/
def truthy : JVal → Bool
  | .null => false
  | .bool b => b
  | .num n => n != 0
  | .str s => s != ""
  | .arr xs => !xs.isEmpty
  | .obj kvs => !kvs.isEmpty

/-- Dictionary lookup; with duplicate keys the last binding wins, as when a
Python dict is built by successive insertion. -/
def jlookup : List (String × JVal) → String → Option JVal
  | [], _ => none
  | (k', v) :: rest, k =>
    match jlookup rest k with
    | some r => some r
    | none => if k' = k then some v else none

/-- `v.get(k, d)`; raises `AttributeError` unless `v` is a dict. -/
def pyGetD (v : JVal) (k : String) (d : JVal) : Except PyErr JVal :=
  match v with
  | .obj kvs => .ok ((jlookup kvs k).getD d)
  | _ => .error .attributeError

/-- `v.get(k)` (default `None`). -/
def pyGet (v : JVal) (k : String) : Except PyErr JVal :=
  pyGetD v k .null

/-- `v[k]` with a string key. -/
def pySubscr (v : JVal) (k : String) : Except PyErr JVal :=
  match v with
  | .obj kvs =>
    match jlookup kvs k with
    | some x => .ok x
    | none => .error .keyError
  | _ => .error .typeError

/-- `v[i]` with a non-negative integer index. -/
def pyIndex (v : JVal) (i : Nat) : Except PyErr JVal :=
  match v with
  | .arr xs =>
    match xs.get? i with
    | some x => .ok x
    | none => .error .indexError
  | .str s =>
    match s.data.get? i with
    | some c => .ok (.str (String.mk [c]))
    | none => .error .indexError
  | .obj _ => .error .keyError
  | _ => .error .typeError

/-- `iter(v)` materialized: lists yield elements, strings yield characters,
dicts yield their keys. -/
def pyIter : JVal → Except PyErr (List JVal)
  | .arr xs => .ok xs
  | .str s => .ok (s.data.map (fun c => .str (String.mk [c])))
  | .obj kvs => .ok (kvs.map (fun kv => .str kv.1))
  | _ => .error .typeError

/-- Substring test on character lists (for `k in someString`). -/
def listHasInfix (needle hay : List Char) : Bool :=
  hay.tails.any (fun t => needle.isPrefixOf t)

/-- Python equality against a string literal (`v == "lit"`): only a string
compares equal; other types compare unequal without raising. -/
def pyEqStr (v : JVal) (lit : String) : Bool :=
  match v with
  | .str s => s = lit
  | _ => false

/-- `k in v` (membership). -/
def pyContains (v : JVal) (k : String) : Except PyErr Bool :=
  match v with
  | .obj kvs => .ok (jlookup kvs k).isSome
  | .arr xs => .ok (xs.any (fun x => pyEqStr x k))
  | .str s => .ok (listHasInfix k.data s.data)
  | _ => .error .typeError

/-- `len(v)`. -/
def pyLen : JVal → Except PyErr Int
  | .arr xs => .ok xs.length
  | .str s => .ok s.length
  | .obj kvs => .ok kvs.length
  | _ => .error .typeError

/-- `v - k` for integer `k`; Python booleans are integers. -/
def pySub (v : JVal) (k : Int) : Except PyErr JVal :=
  match v with
  | .num n => .ok (.num (n - k))
  | .bool b => .ok (.num ((if b then (1 : Int) else 0) - k))
  | _ => .error .typeError

/-- Like `pySub` but producing the bare integer. -/
def pySubInt (v : JVal) (k : Int) : Except PyErr Int :=
  match v with
  | .num n => .ok (n - k)
  | .bool b => .ok ((if b then (1 : Int) else 0) - k)
  | _ => .error .typeError

/-- Python `==` as used for `line == (end_line - 1)`: numbers (and booleans,
which are numbers) compare numerically, `None` only equals `None`, strings
compare as strings; values of different kinds compare unequal.  Container
equality is irrelevant here (the right operand is always a number at the one
use site) and is modelled as `false`. -/
def pyEqJ : JVal → JVal → Bool
  | .null, .null => true
  | .num a, .num b => a = b
  | .num a, .bool b => a = (if b then 1 else 0)
  | .bool a, .num b => (if a then (1 : Int) else 0) = b
  | .bool a, .bool b => a = b
  | .str a, .str b => a = b
  | _, _ => false

/-- Characters stripped by Python's `str.strip()`. -/
def isPyWs (c : Char) : Bool :=
  c = ' ' ∨ c = '\t' ∨ c = '\n' ∨ c = '\r' ∨ c = '\x0b' ∨ c = '\x0c'

/-- `str.strip()` on character lists. -/
def stripChars (cs : List Char) : List Char :=
  ((cs.dropWhile isPyWs).reverse.dropWhile isPyWs).reverse

/-- `s.strip()`. -/
def pyStripStr (s : String) : String :=
  String.mk (stripChars s.data)

/-- `v.strip()`: only strings have `.strip`. -/
def pyStrip (v : JVal) : Except PyErr String :=
  match v with
  | .str s => .ok (pyStripStr s)
  | _ => .error .attributeError

/-- Resolve one bound of a slice `s[i:j]` to an index clamped into
`[0, len]`; `None` means the given default, negative values count from the
end, booleans are the integers 0/1. -/
def sliceBound (len : Nat) (d : Nat) : JVal → Except PyErr Nat
  | .null => .ok d
  | .num n => .ok (if n < 0 then ((len : Int) + n).toNat else min n.toNat len)
  | .bool b => .ok (min (if b then 1 else 0) len)
  | _ => .error .typeError

/-- Pure string slice with resolved bounds. -/
def sliceStr (s : String) (i j : Nat) : String :=
  String.mk ((s.data.drop i).take (j - i))

/-- `s[a:b]` with Python slice semantics on the bound values. -/
def pySlice (s : String) (a b : JVal) : Except PyErr String := do
  let i ← sliceBound s.length 0 a
  let j ← sliceBound s.length s.length b
  .ok (sliceStr s i j)

/-! ### A `json.loads` stand-in

Recursive-descent parser over the character list, with a step-count fuel
that makes the recursion structural.  It covers the JSON subset the checker
emits (null, booleans, integers, strings with escapes, arrays, objects);
`none` corresponds to `json.loads` raising `ValueError`. -/

/-- JSON inter-token whitespace. -/
def isJsonWs (c : Char) : Bool :=
  c = ' ' ∨ c = '\t' ∨ c = '\n' ∨ c = '\r'

/-- Drop leading JSON whitespace. -/
def skipWs : List Char → List Char
  | c :: cs => if isJsonWs c then skipWs cs else c :: cs
  | [] => []

/-- Value of a hex digit. -/
def hexVal (c : Char) : Option Nat :=
  if '0' ≤ c ∧ c ≤ '9' then some (c.toNat - '0'.toNat)
  else if 'a' ≤ c ∧ c ≤ 'f' then some (c.toNat - 'a'.toNat + 10)
  else if 'A' ≤ c ∧ c ≤ 'F' then some (c.toNat - 'A'.toNat + 10)
  else none

/-- Decode a one-character JSON escape. -/
def escChar (e : Char) : Option Char :=
  if e = '\"' then some '\"'
  else if e = '\\' then some '\\'
  else if e = '/' then some '/'
  else if e = 'b' then some '\x08'
  else if e = 'f' then some '\x0c'
  else if e = 'n' then some '\n'
  else if e = 'r' then some '\r'
  else if e = 't' then some '\t'
  else none

/-- Parse the body of a JSON string (after the opening quote), handling the
escape sequences. -/
def parseStrBody : List Char → Option (List Char × List Char)
  | [] => none
  | '\"' :: r => some ([], r)
  | '\\' :: 'u' :: h1 :: h2 :: h3 :: h4 :: r3 =>
    (match hexVal h1, hexVal h2, hexVal h3, hexVal h4 with
     | some a, some b, some c, some d =>
       (match parseStrBody r3 with
        | none => none
        | some (s, rr) =>
          some (Char.ofNat (((a * 16 + b) * 16 + c) * 16 + d) :: s, rr))
     | _, _, _, _ => none)
  | '\\' :: e :: r2 =>
    (match escChar e with
     | none => none
     | some ch =>
       match parseStrBody r2 with
       | none => none
       | some (s, rr) => some (ch :: s, rr))
  | c :: r =>
    match parseStrBody r with
    | none => none
    | some (s, rr) => some (c :: s, rr)

/-- Split off a run of decimal digits. -/
def takeDigits : List Char → (List Char × List Char)
  | c :: cs =>
    if c.isDigit then
      let (ds, rest) := takeDigits cs
      (c :: ds, rest)
    else ([], c :: cs)
  | [] => ([], [])

/-- Digits to a natural number. -/
def digitsToNat (ds : List Char) : Nat :=
  ds.foldl (fun a c => a * 10 + (c.toNat - '0'.toNat)) 0

/-- Parse a JSON integer starting at the given characters (leading zeros
rejected, as in `json.loads`). -/
def parseIntJ (cs : List Char) : Option (Int × List Char) :=
  let (neg, cs') :=
    match cs with
    | '-' :: rest => (true, rest)
    | _ => (false, cs)
  match takeDigits cs' with
  | ([], _) => none
  | (d :: ds, rest) =>
    if d = '0' ∧ ds ≠ [] then none
    else
      let n : Int := digitsToNat (d :: ds)
      some (if neg then -n else n, rest)

/-- Parser work item: a value, the tail of an array, or the tail of an
object. -/
inductive PIn where
  | val (cs : List Char)
  | arrTail (acc : List JVal) (cs : List Char)
  | objTail (acc : List (String × JVal)) (cs : List Char)

/-- One recursive-descent parser step, fuelled. -/
def parseStep : Nat → PIn → Option (JVal × List Char)
  | 0, _ => none
  | n+1, .val cs =>
    match skipWs cs with
    | 'n' :: 'u' :: 'l' :: 'l' :: r => some (.null, r)
    | 't' :: 'r' :: 'u' :: 'e' :: r => some (.bool true, r)
    | 'f' :: 'a' :: 'l' :: 's' :: 'e' :: r => some (.bool false, r)
    | '\"' :: r =>
      match parseStrBody r with
      | some (s, rr) => some (.str (String.mk s), rr)
      | none => none
    | '[' :: r =>
      (match skipWs r with
       | ']' :: r2 => some (.arr [], r2)
       | _ => parseStep n (.arrTail [] r))
    | '\x7b' :: r =>
      (match skipWs r with
       | '\x7d' :: r2 => some (.obj [], r2)
       | _ => parseStep n (.objTail [] r))
    | c :: r =>
      if c = '-' ∨ c.isDigit then
        match parseIntJ (c :: r) with
        | some (k, rest) => some (.num k, rest)
        | none => none
      else none
    | [] => none
  | n+1, .arrTail acc cs =>
    match parseStep n (.val cs) with
    | none => none
    | some (v, r) =>
      match skipWs r with
      | ',' :: r2 => parseStep n (.arrTail (acc ++ [v]) r2)
      | ']' :: r2 => some (.arr (acc ++ [v]), r2)
      | _ => none
  | n+1, .objTail acc cs =>
    match skipWs cs with
    | '\"' :: r =>
      (match parseStrBody r with
       | none => none
       | some (k, r2) =>
         match skipWs r2 with
         | ':' :: r3 =>
           (match parseStep n (.val r3) with
            | none => none
            | some (v, r4) =>
              match skipWs r4 with
              | ',' :: r5 => parseStep n (.objTail (acc ++ [(String.mk k, v)]) r5)
              | '\x7d' :: r5 => some (.obj (acc ++ [(String.mk k, v)]), r5)
              | _ => none)
         | _ => none)
    | _ => none

/-- `json.loads`: parse one document, allowing surrounding whitespace only;
`none` models the `ValueError` raised on malformed input. -/
def json_loads (s : String) : Option JVal :=
  match parseStep (2 * s.length + 2) (.val s.data) with
  | some (v, rest) => if skipWs rest = [] then some v else none
  | none => none

/-! ### The diagnostic record

The 7-tuple `(match, line, col, error, warning, message, near)` returned by
the `*_to_tuple` methods.  All fields are dynamic values, as in the code. -/

/-- One diagnostic tuple. -/
structure Diag where
  file_matches : JVal
  line : JVal
  col : JVal
  is_error : JVal
  is_warning : JVal
  message : JVal
  near : JVal
deriving Repr

/-! ### The embedded linter core (from `linter.py`) -/

/-- Lines 117-122: `if line: line -= 1` — decrement a truthy value (a
truthy non-number raises `TypeError`), pass falsy values through. -/
def decr_if_truthy (v : JVal) : Except PyErr JVal :=
  if truthy v then pySub v 1 else .ok v

/-- The 1-based-to-0-based conversion applied to the matched message's start
position (`linter.py` lines 117-122), on the (line, column) pair. -/
def to_zero_based (line col : JVal) : Except PyErr (JVal × JVal) := do
  let l ← decr_if_truthy line
  let c ← decr_if_truthy col
  .ok (l, c)

/-- Lines 123-135: fetch `end = message_end.get('column', None)` and compute
`near`: when `end` is truthy and `line == message_end.get('line') - 1`, the
context snippet sliced by `[col:end]` wrapped in quote characters, otherwise
`None`. -/
def near_slice (error_context : JVal) (col : JVal) (message_end : JVal)
    (line : JVal) : Except PyErr JVal := do
  let endv ← pyGet message_end "column"
  if truthy endv then do
    let el ← pyGet message_end "line"
    let elm1 ← pySub el 1
    if pyEqJ line elm1 then
      match error_context with
      | .str s => do
        let sl ← pySlice s col endv
        .ok (.str ("\"" ++ sl ++ "\""))
      | _ => .error .typeError
    else .ok .null
  else .ok .null

/-- `_format_message` (lines 193-229): `Comment` messages yield their
stripped `descr`; `Blame` messages yield the context snippet, refined to
`"slice (descr)"` when a location is present and the sliced snippet differs
from the stripped `descr`; any other type falls through returning `None`. -/
def format_message (flow_message : JVal) : Except PyErr JVal := do
  let msg_type ← pyGet flow_message "type"
  if pyEqStr msg_type "Comment" then do
    let d ← pyGetD flow_message "descr" (.str "")
    let s ← pyStrip d
    .ok (.str s)
  else if pyEqStr msg_type "Blame" then
    match ← pyGetD flow_message "context" (.str "") with
    | .null => .ok (.str "")
    | .str snippet => do
      let loc ← pyGetD flow_message "loc" (.obj [])
      if truthy loc then do
        let st ← pyGetD loc "start" (.obj [])
        let stcol ← pyGetD st "column" (.num 1)
        let start ← pySub stcol 1
        let en ← pyGetD loc "end" (.obj [])
        let encol ← pyGetD en "column" (.num snippet.length)
        let d ← pyGet flow_message "descr"
        let error_descr ← pyStrip d
        let error_string ← pySlice snippet start encol
        if error_string ≠ error_descr then
          .ok (.str (pyStripStr (error_string ++ " (" ++ error_descr ++ ")")))
        else .ok (.str (pyStripStr snippet))
      else .ok (.str (pyStripStr snippet))
    | _ => .error .typeError
  else .ok .null

mutual
/-- The loop of `_traverse_extra` over a non-`None` tree: iterate it and
process each node.  The fuel bounds the nesting depth, modelling Python's
recursion limit; the fuel chosen at the call site can never be exhausted. -/
def traverse_extra_go : JVal → Nat → Except PyErr (List JVal)
  | _, 0 => .error .recursionError
  | v, n+1 => do
    let xs ← pyIter v
    traverse_nodes xs n
termination_by _v n => (n, 0)

/-- Process the nodes of one `extra` level: yield each node's messages, then
the recursive traversal of its children (`None` children yield nothing, the
first line of `_traverse_extra`). -/
def traverse_nodes : List JVal → Nat → Except PyErr (List JVal)
  | [], _ => .ok []
  | x :: rest, n => do
    let msgv ← pyGet x "message"
    let msgs ← pyIter msgv
    let children ← pyGet x "children"
    let cM ←
      match children with
      | .null => .ok []
      | c => traverse_extra_go c n
    let rM ← traverse_nodes rest n
    .ok (msgs ++ cM ++ rM)
termination_by xs n => (n, xs.length + 1)
end

/-- `_traverse_extra` (lines 322-329): `None` yields nothing, anything else
is traversed depth-first, each node contributing its own `message` list
before its `children`. -/
def traverse_extra (v : JVal) (fuel : Nat) : Except PyErr (List JVal) :=
  match v with
  | .null => .ok []
  | _ => traverse_extra_go v fuel

/-- Loop body of `_find_matching_msg_for_file`: test
`message.get('loc', {}).get('source') == self.filename`. -/
def msg_source_matches (filename : String) (m : JVal) : Except PyErr Bool := do
  let loc ← pyGetD m "loc" (.obj [])
  let src ← pyGet loc "source"
  .ok (pyEqStr src filename)

/-- The `for message in messages` search loop. -/
def first_matching (filename : String) : List JVal → Except PyErr (Option JVal)
  | [] => .ok none
  | m :: ms => do
    let b ← msg_source_matches filename m
    if b then .ok (some m) else first_matching filename ms

/-- `_find_matching_msg_for_file` (lines 152-191): scan, in order, the
`operation` message (when the key is present), then the `message` list, then
the depth-first traversal of `extra`, returning the first message whose
location's source equals the current filename.  As in the lazy chain, the
`message` list and the `extra` tree are only consumed when no earlier
candidate matched. -/
def find_matching_msg_for_file (filename : String) (flow_error : JVal) :
    Except PyErr (Option JVal) := do
  let hasOp ← pyContains flow_error "operation"
  let opPart ←
    if hasOp then do
      let op ← pySubscr flow_error "operation"
      pure [op]
    else pure ([] : List JVal)
  let msgs ← pySubscr flow_error "message"
  let extra ← pyGet flow_error "extra"
  match ← first_matching filename opPart with
  | some m => .ok (some m)
  | none => do
    let msgsList ← pyIter msgs
    match ← first_matching filename msgsList with
    | some m => .ok (some m)
    | none => do
      let extraMsgs ← traverse_extra extra (jsize extra)
      first_matching filename extraMsgs

/-- The placeholder tuple returned when no message matches the file
(line 110): `(False, 0, 0, False, False, '', None)`. -/
def placeholderDiag : Diag :=
  ⟨.bool false, .num 0, .num 0, .bool false, .bool false, .str "", .null⟩

/-- `_error_to_tuple` (lines 76-150). -/
def error_to_tuple (filename : String) (error : JVal) : Except PyErr Diag := do
  let error_messages ← pyGetD error "message" (.arr [])
  let operation ← pyGetD error "operation" (.obj [])
  -- line 106: `loc = operation.get('loc') or error_messages[0].get('loc', {})`
  -- (the result is immediately overwritten below, but the evaluation — and
  -- its possible IndexError — happens)
  let opLoc ← pyGet operation "loc"
  let _loc ←
    if truthy opLoc then pure opLoc
    else do
      let m0 ← pyIndex error_messages 0
      pyGetD m0 "loc" (.obj [])
  match ← find_matching_msg_for_file filename error with
  | none => .ok placeholderDiag
  | some message => do
    let error_context ← pyGetD message "context" (.str "")
    let loc ← pyGet message "loc"
    let message_start ← pyGetD loc "start" (.obj [])
    let message_end ← pyGetD loc "end" (.obj [])
    let line0 ← pyGet message_start "line"
    let col0 ← pyGet message_start "column"
    let (line, col) ← to_zero_based line0 col0
    let near ← near_slice error_context col message_end line
    let kind ← pyGetD error "kind" (.bool false)
    let level ← pyGetD error "level" (.bool false)
    let errv := if pyEqStr level "error" then kind else .bool false
    let warnv := if pyEqStr level "warning" then kind else .bool false
    let msgsList ← pyIter error_messages
    let formatted ← msgsList.mapM format_message
    let strs ← formatted.mapM (fun v =>
      match v with
      | JVal.str s => Except.ok s
      | _ => Except.error PyErr.typeError)
    let combined := pyStripStr (String.intercalate " " strs)
    .ok ⟨.bool true, line, col, errv, warnv, .str combined, near⟩

/-- `_uncovered_to_tuple` (lines 231-255), threading the per-run set of
already-reported lines. -/
def uncovered_to_tuple (filename : String) (uncovered : JVal)
    (uncovered_lines : List Int) : Except PyErr (Diag × List Int) := do
  let src ← pyGet uncovered "source"
  let mtch := pyEqStr src filename
  let st ← pySubscr uncovered "start"
  let lineV ← pySubscr st "line"
  let line ← pySubInt lineV 1
  let colV ← pySubscr st "column"
  let col ← pySubInt colV 1
  let en ← pySubscr uncovered "end"
  let eoffV ← pySubscr en "offset"
  let soffV ← pySubscr st "offset"
  let eoff ← pySubInt eoffV 0
  let soff ← pySubInt soffV 0
  let near := String.mk (List.replicate (eoff - soff).toNat ' ')
  let message :=
    if line ∈ uncovered_lines then "〃"
    else "Code is not covered by Flow (any type)"
  let lines' :=
    if line ∈ uncovered_lines then uncovered_lines else line :: uncovered_lines
  .ok (⟨.bool mtch, .num line, .num col, .bool false, .str "coverage",
        .str message, .str near⟩, lines')

/-- `_empty_to_tuple` (lines 257-281). -/
def empty_to_tuple (filename : String) (empty : JVal)
    (empty_lines : List Int) : Except PyErr (Diag × List Int) := do
  let src ← pyGet empty "source"
  let mtch := pyEqStr src filename
  let st ← pySubscr empty "start"
  let lineV ← pySubscr st "line"
  let line ← pySubInt lineV 1
  let colV ← pySubscr st "column"
  let col ← pySubInt colV 1
  let en ← pySubscr empty "end"
  let eoffV ← pySubscr en "offset"
  let soffV ← pySubscr st "offset"
  let eoff ← pySubInt eoffV 0
  let soff ← pySubInt soffV 0
  let near := String.mk (List.replicate (eoff - soff).toNat ' ')
  let message :=
    if line ∈ empty_lines then "〃"
    else "Code is not covered by Flow (empty type)"
  let lines' :=
    if line ∈ empty_lines then empty_lines else line :: empty_lines
  .ok (⟨.bool mtch, .num line, .num col, .bool false, .str "coverage",
        .str message, .str near⟩, lines')

/-- `map(f, locs, repeat(set()))`: the one shared set is threaded through
the consumption of the lazy map, in input order. -/
def map_with_lines
    (f : JVal → List Int → Except PyErr (Diag × List Int)) :
    List JVal → List Int → Except PyErr (List Diag)
  | [], _ => .ok []
  | x :: xs, seen => do
    let (d, seen') ← f x seen
    let rest ← map_with_lines f xs seen'
    .ok (d :: rest)

/-- The body of `find_errors` after the `[check, coverage]` pair has been
unpacked (lines 300-314): error tuples, then uncovered-coverage tuples, then
empty-coverage tuples, each coverage category with its own fresh seen-line
set. -/
def find_errors_parsed (filename : String) (check coverage : JVal) :
    Except PyErr (List Diag) := do
  let errors ← pyGetD check "errors" (.arr [])
  let _len ← pyLen errors
  let _passed ← pyGetD check "passed" (.bool true)
  let errList ← pyIter errors
  let exprs1 ← pyGetD coverage "expressions" (.obj [])
  let unc ← pyGetD exprs1 "uncovered_locs" (.arr [])
  let uncList ← pyIter unc
  let exprs2 ← pyGetD coverage "expressions" (.obj [])
  let emp ← pyGetD exprs2 "empty_locs" (.arr [])
  let empList ← pyIter emp
  let errTs ← errList.mapM (error_to_tuple filename)
  let uncTs ← map_with_lines (uncovered_to_tuple filename) uncList []
  let empTs ← map_with_lines (empty_to_tuple filename) empList []
  .ok (errTs ++ uncTs ++ empTs)

/-- `check, coverage = v`: tuple unpacking of an iterable of exactly two
elements; wrong arity raises `ValueError`, a non-iterable raises
`TypeError`. -/
def pyUnpack2 : JVal → Except PyErr (JVal × JVal)
  | .arr [a, b] => .ok (a, b)
  | .arr _ => .error .valueError
  | .str s =>
    match s.data with
    | [a, b] => .ok (.str (String.mk [a]), .str (String.mk [b]))
    | _ => .error .valueError
  | .obj kvs =>
    match kvs with
    | [(k1, _), (k2, _)] => .ok (.str k1, .str k2)
    | _ => .error .valueError
  | _ => .error .typeError

/-- `find_errors` (lines 283-314), from the raw output string.  The
`try/except ValueError` covers both `json.loads` and the two-element
unpacking; any other exception propagates.  The result models the fully
consumed lazy chain the method returns. -/
def find_errors (filename : String) (output : String) :
    Except PyErr (List Diag) :=
  match json_loads output with
  | none => .ok []
  | some v =>
    match pyUnpack2 v with
    | .error .valueError => .ok []
    | .error e => .error e
    | .ok (check, coverage) => find_errors_parsed filename check coverage

/-! ### The typed report model

The checker's report format, as documented in the docstrings of
`_error_to_tuple` / `_find_matching_msg_for_file` (flow's `flowResult.js`
types) and in the coverage output.  Values of these types are encoded into
`JVal` documents; `Option` fields encode absent keys. -/

/-- A position: `{line?, column?}` (1-based). -/
structure FlowPos where
  line : Option Int
  column : Option Int

/-- A location: `{source?, start?, end?}`. -/
structure FlowLoc where
  source : Option String
  start : Option FlowPos
  stop : Option FlowPos

/-- A `FlowMessage`: `{descr?, type?, context?, loc?}`; `context` may be
present-but-`null` (`Option (Option String)`). -/
structure FlowMessage where
  descr : Option String
  mtype : Option String
  context : Option (Option String)
  loc : Option FlowLoc

/-- A node of the recursive `extra` trace tree:
`{message: [FlowMessage], children: FlowExtra}`. -/
inductive ExtraNode where
  | mk (message : List FlowMessage) (children : List ExtraNode)

/-- A `FlowError`: `{kind?, level?, message, operation?, extra?}`. -/
structure RawError where
  kind : Option String
  level : Option String
  message : List FlowMessage
  operation : Option FlowMessage
  extra : Option (List ExtraNode)

/-- A coverage position: `{line, column, offset}`. -/
structure CovPos where
  line : Int
  column : Int
  offset : Int

/-- A coverage location: `{source?, start, end}`. -/
structure CovLoc where
  source : Option String
  start : CovPos
  stop : CovPos

/-- Encode an optional field as an optional key. -/
def optEntry (k : String) : Option JVal → List (String × JVal)
  | none => []
  | some v => [(k, v)]

/-- Encode an optional integer as `null` or a number. -/
def encOptInt : Option Int → JVal
  | none => .null
  | some n => .num n

/-- Encode a position. -/
def encPos (p : FlowPos) : JVal :=
  .obj (optEntry "line" (p.line.map JVal.num) ++
        optEntry "column" (p.column.map JVal.num))

/-- Encode a location. -/
def encLoc (l : FlowLoc) : JVal :=
  .obj (optEntry "source" (l.source.map JVal.str) ++
        optEntry "start" (l.start.map encPos) ++
        optEntry "end" (l.stop.map encPos))

/-- Encode a possibly-`null` context string. -/
def encCtx : Option String → JVal
  | none => .null
  | some s => .str s

/-- Encode a message. -/
def encMsg (m : FlowMessage) : JVal :=
  .obj (optEntry "descr" (m.descr.map JVal.str) ++
        optEntry "type" (m.mtype.map JVal.str) ++
        optEntry "context" (m.context.map encCtx) ++
        optEntry "loc" (m.loc.map encLoc))

mutual
/-- Encode one `extra` node. -/
def encNode : ExtraNode → JVal
  | .mk msgs cs => .obj [("message", .arr (msgs.map encMsg)),
                         ("children", .arr (encNodes cs))]

/-- Encode a list of `extra` nodes. -/
def encNodes : List ExtraNode → List JVal
  | [] => []
  | x :: xs => encNode x :: encNodes xs
end

/-- Encode an `extra` tree. -/
def encExtra (l : List ExtraNode) : JVal :=
  .arr (encNodes l)

/-- Encode an error. -/
def encErr (e : RawError) : JVal :=
  .obj (optEntry "kind" (e.kind.map JVal.str) ++
        optEntry "level" (e.level.map JVal.str) ++
        [("message", .arr (e.message.map encMsg))] ++
        optEntry "operation" (e.operation.map encMsg) ++
        optEntry "extra" (e.extra.map encExtra))

/-- Encode a coverage position. -/
def encCovPos (p : CovPos) : JVal :=
  .obj [("line", .num p.line), ("column", .num p.column),
        ("offset", .num p.offset)]

/-- Encode a coverage location. -/
def encCovLoc (c : CovLoc) : JVal :=
  .obj (optEntry "source" (c.source.map JVal.str) ++
        [("start", encCovPos c.start), ("end", encCovPos c.stop)])

/-! ### Specification-side descriptions

These definitions follow the specification's wording; the theorems compare
the embedded code against them. -/

/-- Whether a message's location names the given file (the predicate of the
candidate search). -/
def msgMatches (fn : String) (m : FlowMessage) : Bool :=
  match m.loc with
  | some l =>
    match l.source with
    | some s => s = fn
    | none => false
  | none => false

mutual
/-- Depth-first flattening of one `extra` node: its own messages before its
children's. -/
def flattenNode : ExtraNode → List FlowMessage
  | .mk msgs cs => msgs ++ flattenNodes cs

/-- Depth-first flattening of a list of `extra` nodes. -/
def flattenNodes : List ExtraNode → List FlowMessage
  | [] => []
  | x :: xs => flattenNode x ++ flattenNodes xs
end

/-- The flattened candidate list of an error: the `operation` message when
present, then the `message` list, then the depth-first traversal of
`extra`. -/
def candidateList (e : RawError) : List FlowMessage :=
  (match e.operation with
   | some op => [op]
   | none => []) ++
  e.message ++
  (match e.extra with
   | none => []
   | some l => flattenNodes l)

mutual
/-- Fuel sufficient for `traverse_extra_go` on one encoded node's children. -/
def needNode : ExtraNode → Nat
  | .mk _ cs => 1 + needNodes cs

/-- Fuel sufficient for `traverse_nodes` on an encoded node list. -/
def needNodes : List ExtraNode → Nat
  | [] => 0
  | x :: xs => max (needNode x) (needNodes xs)
end

/-- The 0-based-converted start position of a matched message, as the code
computes it: truthy values are decremented, falsy ones (absent lines and
the number 0) pass through unchanged. -/
def zeroBased : Option Int → JVal
  | none => .null
  | some n => if n = 0 then .num 0 else .num (n - 1)

/-- The 0-based-converted start line as an integer option: a present
nonzero line is decremented, zero and absent lines are unchanged. -/
def zeroBasedInt : Option Int → Option Int
  | none => none
  | some n => some (if n = 0 then 0 else n - 1)

/-- Whether a coverage location's source is the current file. -/
def covSourceMatches (fn : String) (c : CovLoc) : Bool :=
  match c.source with
  | some s => s = fn
  | none => false

/-- The diagnostic produced for one coverage location, given the set of
already-reported lines of its category. -/
def covDiag (fn desc : String) (seen : List Int) (c : CovLoc) : Diag :=
  ⟨.bool (covSourceMatches fn c), .num (c.start.line - 1),
   .num (c.start.column - 1), .bool false, .str "coverage",
   .str (if (c.start.line - 1) ∈ seen then "〃" else desc),
   .str (String.mk (List.replicate (c.stop.offset - c.start.offset).toNat ' '))⟩

/-- The seen-line set after one coverage location. -/
def covSeenUpdate (seen : List Int) (c : CovLoc) : List Int :=
  if (c.start.line - 1) ∈ seen then seen else (c.start.line - 1) :: seen

/-- The diagnostics of one coverage category: the first location on a fresh
line gets the descriptive message and marks the line seen; later locations
on a seen line get the ditto placeholder, each at its own column. -/
def covExpected (fn desc : String) : List Int → List CovLoc → List Diag
  | _, [] => []
  | seen, c :: rest =>
    covDiag fn desc seen c :: covExpected fn desc (covSeenUpdate seen c) rest

/-- Truthiness of an encoded location (`operation.get('loc')` at line 106 is
used in a boolean context): an encoded location dict is truthy exactly when
it has at least one field. -/
def locTruthy (l : FlowLoc) : Bool :=
  l.source.isSome || l.start.isSome || l.stop.isSome

/-- Whether line 106 finds a truthy `operation.get('loc')`, so that
`error_messages[0]` is not evaluated. -/
def opLocPresent (e : RawError) : Bool :=
  match e.operation with
  | some op =>
    match op.loc with
    | some l => locTruthy l
    | none => false
  | none => false

/-! ### Concrete inputs used by the claims -/

/-- A well-formed `[check, coverage]` document whose single error has no
`operation` key and an empty `message` list. -/
def c1input : String :=
  "[\x7b\"errors\": [\x7b\"message\": []\x7d]\x7d, \x7b\x7d]"

/-- The specification's end-to-end scenario A, wrapped in the
`[check, coverage]` pair with an empty coverage document. -/
def c2input : String :=
  "[\x7b\"errors\":[\x7b\"kind\":\"InferError\",\"level\":\"error\",\"message\":[\x7b\"descr\":\"bad\",\"type\":\"Comment\"\x7d],\"operation\":\x7b\"type\":\"Blame\",\"context\":\"x\",\"loc\":\x7b\"source\":\"f.js\",\"start\":\x7b\"line\":2,\"column\":3\x7d,\"end\":\x7b\"line\":2,\"column\":4\x7d\x7d\x7d\x7d],\"passed\":false\x7d,\x7b\x7d]"

/-- A message whose location names another file. -/
def m4 : FlowMessage :=
  ⟨some "d", some "Comment", none,
   some ⟨some "other.js", some ⟨some 1, some 1⟩, some ⟨some 1, some 2⟩⟩⟩

/-- An error none of whose candidate messages matches `f.js`. -/
def e4 : RawError :=
  ⟨some "K", some "error", [m4], none, none⟩

/-- A matched message whose span starts on (1-based) line 0 and ends on
line 1, with end column 2 and context `"ab"`. -/
def m6 : FlowMessage :=
  ⟨some "d", some "Comment", some (some "ab"),
   some ⟨some "f.js", some ⟨some 0, some 1⟩, some ⟨some 1, some 2⟩⟩⟩

/-- An error carrying `m6`. -/
def e6 : RawError :=
  ⟨some "K", some "error", [m6], none, none⟩

/-- A matched message spanning columns 2-4 of line 1 with context
`"abcdef"`. -/
def m8 : FlowMessage :=
  ⟨some "d", some "Comment", some (some "abcdef"),
   some ⟨some "f.js", some ⟨some 1, some 2⟩, some ⟨some 1, some 4⟩⟩⟩

/-- An error carrying `m8`. -/
def e8 : RawError :=
  ⟨some "K", some "error", [m8], none, none⟩

/-! ### Generic lemmas -/

@[simp] theorem ok_bind {α β : Type} (a : α) (f : α → Except PyErr β) :
    (Except.ok a >>= f) = f a := rfl

@[simp] theorem error_bind {α β : Type} (e : PyErr) (f : α → Except PyErr β) :
    ((Except.error e : Except PyErr α) >>= f) = .error e := rfl

/-! ### Lookup lemmas for encoded values -/

theorem encMsg_get_descr (m : FlowMessage) (d : JVal) :
    pyGetD (encMsg m) "descr" d = .ok ((m.descr.map JVal.str).getD d) := by
  obtain ⟨de, t, c, l⟩ := m
  cases de <;> cases t <;> cases c <;> cases l <;> rfl

theorem encMsg_get_type (m : FlowMessage) (d : JVal) :
    pyGetD (encMsg m) "type" d = .ok ((m.mtype.map JVal.str).getD d) := by
  obtain ⟨de, t, c, l⟩ := m
  cases de <;> cases t <;> cases c <;> cases l <;> rfl

theorem encMsg_get_context (m : FlowMessage) (d : JVal) :
    pyGetD (encMsg m) "context" d = .ok ((m.context.map encCtx).getD d) := by
  obtain ⟨de, t, c, l⟩ := m
  cases de <;> cases t <;> cases c <;> cases l <;> rfl

theorem encMsg_get_loc (m : FlowMessage) (d : JVal) :
    pyGetD (encMsg m) "loc" d = .ok ((m.loc.map encLoc).getD d) := by
  obtain ⟨de, t, c, l⟩ := m
  cases de <;> cases t <;> cases c <;> cases l <;> rfl

theorem encLoc_get_source (l : FlowLoc) (d : JVal) :
    pyGetD (encLoc l) "source" d = .ok ((l.source.map JVal.str).getD d) := by
  obtain ⟨s, st, en⟩ := l
  cases s <;> cases st <;> cases en <;> rfl

theorem encLoc_get_start (l : FlowLoc) (d : JVal) :
    pyGetD (encLoc l) "start" d = .ok ((l.start.map encPos).getD d) := by
  obtain ⟨s, st, en⟩ := l
  cases s <;> cases st <;> cases en <;> rfl

theorem encLoc_get_stop (l : FlowLoc) (d : JVal) :
    pyGetD (encLoc l) "end" d = .ok ((l.stop.map encPos).getD d) := by
  obtain ⟨s, st, en⟩ := l
  cases s <;> cases st <;> cases en <;> rfl

theorem encPos_get_line (p : FlowPos) (d : JVal) :
    pyGetD (encPos p) "line" d = .ok ((p.line.map JVal.num).getD d) := by
  obtain ⟨li, co⟩ := p
  cases li <;> cases co <;> rfl

theorem encPos_get_column (p : FlowPos) (d : JVal) :
    pyGetD (encPos p) "column" d = .ok ((p.column.map JVal.num).getD d) := by
  obtain ⟨li, co⟩ := p
  cases li <;> cases co <;> rfl

theorem encErr_get_kind (e : RawError) (d : JVal) :
    pyGetD (encErr e) "kind" d = .ok ((e.kind.map JVal.str).getD d) := by
  obtain ⟨k, le, ms, op, ex⟩ := e
  cases k <;> cases le <;> cases op <;> cases ex <;> rfl

theorem encErr_get_level (e : RawError) (d : JVal) :
    pyGetD (encErr e) "level" d = .ok ((e.level.map JVal.str).getD d) := by
  obtain ⟨k, le, ms, op, ex⟩ := e
  cases k <;> cases le <;> cases op <;> cases ex <;> rfl

theorem encErr_get_message (e : RawError) (d : JVal) :
    pyGetD (encErr e) "message" d = .ok (.arr (e.message.map encMsg)) := by
  obtain ⟨k, le, ms, op, ex⟩ := e
  cases k <;> cases le <;> cases op <;> cases ex <;> rfl

theorem encErr_subscr_message (e : RawError) :
    pySubscr (encErr e) "message" = .ok (.arr (e.message.map encMsg)) := by
  obtain ⟨k, le, ms, op, ex⟩ := e
  cases k <;> cases le <;> cases op <;> cases ex <;> rfl

theorem encErr_get_operation (e : RawError) (d : JVal) :
    pyGetD (encErr e) "operation" d = .ok ((e.operation.map encMsg).getD d) := by
  obtain ⟨k, le, ms, op, ex⟩ := e
  cases k <;> cases le <;> cases op <;> cases ex <;> rfl

theorem encErr_contains_operation (e : RawError) :
    pyContains (encErr e) "operation" = .ok e.operation.isSome := by
  obtain ⟨k, le, ms, op, ex⟩ := e
  cases k <;> cases le <;> cases op <;> cases ex <;> rfl

theorem encErr_subscr_operation (e : RawError) (op : FlowMessage)
    (h : e.operation = some op) :
    pySubscr (encErr e) "operation" = .ok (encMsg op) := by
  obtain ⟨k, le, ms, o, ex⟩ := e
  cases h
  cases k <;> cases le <;> cases ex <;> rfl

theorem encErr_get_extra (e : RawError) :
    pyGet (encErr e) "extra" = .ok ((e.extra.map encExtra).getD .null) := by
  obtain ⟨k, le, ms, op, ex⟩ := e
  cases k <;> cases le <;> cases op <;> cases ex <;> rfl

theorem encCovLoc_get_source (c : CovLoc) :
    pyGet (encCovLoc c) "source" = .ok ((c.source.map JVal.str).getD .null) := by
  obtain ⟨s, st, en⟩ := c
  cases s <;> rfl

theorem encCovLoc_subscr_start (c : CovLoc) :
    pySubscr (encCovLoc c) "start" = .ok (encCovPos c.start) := by
  obtain ⟨s, st, en⟩ := c
  cases s <;> rfl

theorem encCovLoc_subscr_stop (c : CovLoc) :
    pySubscr (encCovLoc c) "end" = .ok (encCovPos c.stop) := by
  obtain ⟨s, st, en⟩ := c
  cases s <;> rfl

/-! ### The candidate search on encoded errors -/

theorem msg_source_matches_enc (fn : String) (m : FlowMessage) :
    msg_source_matches fn (encMsg m) = .ok (msgMatches fn m) := by
  unfold msg_source_matches
  rw [show pyGetD (encMsg m) "loc" (.obj []) =
        .ok ((m.loc.map encLoc).getD (.obj [])) from encMsg_get_loc m _]
  cases hl : m.loc with
  | none => simp [msgMatches, hl, pyGet, pyGetD, jlookup, pyEqStr, Except.bind]
  | some l =>
    cases hs : l.source with
    | none =>
      simp [msgMatches, hl, hs, pyGet, encLoc_get_source, Except.bind]
      simp [pyEqStr]
    | some s =>
      simp [msgMatches, hl, hs, pyGet, encLoc_get_source, Except.bind]
      simp [pyEqStr]

theorem first_matching_enc (fn : String) :
    ∀ (ms : List FlowMessage),
      first_matching fn (ms.map encMsg) =
        .ok ((ms.find? (msgMatches fn)).map encMsg)
  | [] => rfl
  | m :: ms => by
    simp only [List.map_cons, first_matching, msg_source_matches_enc,
      Except.bind]
    cases h : msgMatches fn m with
    | true => simp [h, List.find?_cons_of_pos, Except.bind]
    | false =>
      simp [h, List.find?_cons_of_neg, first_matching_enc fn ms, Except.bind]

theorem traverse_nodes_enc :
    ∀ (l : List ExtraNode) (m : Nat), needNodes l ≤ m →
      traverse_nodes (encNodes l) m = .ok ((flattenNodes l).map encMsg)
  | [], m, _ => by simp [encNodes, traverse_nodes, flattenNodes]
  | .mk msl cs :: xs, m, h => by
    have hx : needNodes xs ≤ m := by
      have hmr := le_max_right (needNode (.mk msl cs)) (needNodes xs)
      calc needNodes xs ≤ needNodes (.mk msl cs :: xs) := hmr
        _ ≤ m := h
    have hn : 1 + needNodes cs ≤ m := by
      have hml := le_max_left (needNode (.mk msl cs)) (needNodes xs)
      calc (1 : Nat) + needNodes cs = needNode (.mk msl cs) := by
            simp [needNode]
        _ ≤ needNodes (.mk msl cs :: xs) := hml
        _ ≤ m := h
    obtain ⟨m', rfl⟩ : ∃ m', m = m' + 1 := ⟨m - 1, by omega⟩
    have ihc := traverse_nodes_enc cs m' (by omega)
    have ihx := traverse_nodes_enc xs (m' + 1) hx
    have hmsg : pyGet (encNode (.mk msl cs)) "message" =
        .ok (.arr (msl.map encMsg)) := rfl
    have hch : pyGet (encNode (.mk msl cs)) "children" =
        .ok (.arr (encNodes cs)) := rfl
    have hgo : traverse_extra_go (.arr (encNodes cs)) (m' + 1) =
        .ok ((flattenNodes cs).map encMsg) := by
      simp only [traverse_extra_go, pyIter, ok_bind]
      exact ihc
    simp only [encNodes, traverse_nodes, hmsg, ok_bind, pyIter, hch, hgo, ihx]
    simp [flattenNodes, flattenNode]
termination_by l _ _ => sizeOf l

theorem needNodes_le_jsize :
    ∀ (l : List ExtraNode), needNodes l ≤ jsizeL (encNodes l)
  | [] => by simp [needNodes, encNodes, jsizeL]
  | .mk msl cs :: xs => by
    have ihc := needNodes_le_jsize cs
    have ihx := needNodes_le_jsize xs
    simp only [needNodes, needNode, encNodes, jsizeL, encNode, jsize, jsizeO]
    omega
termination_by l => sizeOf l

theorem traverse_extra_encExtra (l : List ExtraNode) :
    traverse_extra (encExtra l) (jsize (encExtra l)) =
      .ok ((flattenNodes l).map encMsg) := by
  have h1 : jsize (encExtra l) = jsizeL (encNodes l) + 1 := by
    simp [encExtra, jsize, Nat.add_comm]
  rw [h1]
  simp only [encExtra, traverse_extra, traverse_extra_go, pyIter, ok_bind]
  exact traverse_nodes_enc l _ (needNodes_le_jsize l)

theorem find_matching_enc (fn : String) (e : RawError) :
    find_matching_msg_for_file fn (encErr e) =
      .ok (((candidateList e).find? (msgMatches fn)).map encMsg) := by
  cases hop : e.operation with
  | none =>
    cases hfm : e.message.find? (msgMatches fn) with
    | some mm =>
      simp [find_matching_msg_for_file, encErr_contains_operation, hop,
        encErr_subscr_message, encErr_get_extra, first_matching,
        first_matching_enc, pyIter, hfm, candidateList, List.find?_append]
    | none =>
      cases hex : e.extra with
      | none =>
        simp [find_matching_msg_for_file, encErr_contains_operation, hop,
          encErr_subscr_message, encErr_get_extra, hex, first_matching,
          first_matching_enc, pyIter, hfm, traverse_extra, candidateList,
          List.find?_append]
      | some l =>
        simp [find_matching_msg_for_file, encErr_contains_operation, hop,
          encErr_subscr_message, encErr_get_extra, hex, first_matching,
          first_matching_enc, pyIter, hfm, traverse_extra_encExtra,
          candidateList, List.find?_append]
  | some op =>
    have hsub : pySubscr (encErr e) "operation" = .ok (encMsg op) :=
      encErr_subscr_operation e op hop
    cases hmo : msgMatches fn op with
    | true =>
      simp [find_matching_msg_for_file, encErr_contains_operation, hop, hsub,
        encErr_subscr_message, encErr_get_extra, first_matching,
        msg_source_matches_enc, hmo, candidateList, List.find?_cons_of_pos]
    | false =>
      cases hfm : e.message.find? (msgMatches fn) with
      | some mm =>
        simp [find_matching_msg_for_file, encErr_contains_operation, hop,
          hsub, encErr_subscr_message, encErr_get_extra, first_matching,
          msg_source_matches_enc, hmo, first_matching_enc, pyIter, hfm,
          candidateList, List.find?_append, List.find?_cons_of_neg]
      | none =>
        cases hex : e.extra with
        | none =>
          simp [find_matching_msg_for_file, encErr_contains_operation, hop,
            hsub, encErr_subscr_message, encErr_get_extra, hex,
            first_matching, msg_source_matches_enc, hmo, first_matching_enc,
            pyIter, hfm, traverse_extra, candidateList, List.find?_append,
            List.find?_cons_of_neg]
        | some l =>
          simp [find_matching_msg_for_file, encErr_contains_operation, hop,
            hsub, encErr_subscr_message, encErr_get_extra, hex,
            first_matching, msg_source_matches_enc, hmo, first_matching_enc,
            pyIter, hfm, traverse_extra_encExtra, candidateList,
            List.find?_append, List.find?_cons_of_neg]

/-! ### Coverage lemmas -/

theorem encCovPos_line (p : CovPos) :
    pySubscr (encCovPos p) "line" = .ok (.num p.line) := rfl

theorem encCovPos_column (p : CovPos) :
    pySubscr (encCovPos p) "column" = .ok (.num p.column) := rfl

theorem encCovPos_offset (p : CovPos) :
    pySubscr (encCovPos p) "offset" = .ok (.num p.offset) := rfl

theorem uncovered_to_tuple_enc (fn : String) (c : CovLoc) (seen : List Int) :
    uncovered_to_tuple fn (encCovLoc c) seen =
      .ok (covDiag fn "Code is not covered by Flow (any type)" seen c,
           covSeenUpdate seen c) := by
  obtain ⟨s, st, en⟩ := c
  cases s <;>
    simp [uncovered_to_tuple, encCovLoc_get_source, encCovLoc_subscr_start,
      encCovLoc_subscr_stop, encCovPos_line, encCovPos_column,
      encCovPos_offset, pySubInt, covDiag, covSeenUpdate, covSourceMatches,
      pyEqStr]

theorem empty_to_tuple_enc (fn : String) (c : CovLoc) (seen : List Int) :
    empty_to_tuple fn (encCovLoc c) seen =
      .ok (covDiag fn "Code is not covered by Flow (empty type)" seen c,
           covSeenUpdate seen c) := by
  obtain ⟨s, st, en⟩ := c
  cases s <;>
    simp [empty_to_tuple, encCovLoc_get_source, encCovLoc_subscr_start,
      encCovLoc_subscr_stop, encCovPos_line, encCovPos_column,
      encCovPos_offset, pySubInt, covDiag, covSeenUpdate, covSourceMatches,
      pyEqStr]

theorem map_with_lines_uncovered (fn : String) :
    ∀ (cs : List CovLoc) (seen : List Int),
      map_with_lines (uncovered_to_tuple fn) (cs.map encCovLoc) seen =
        .ok (covExpected fn "Code is not covered by Flow (any type)" seen cs)
  | [], _ => rfl
  | c :: cs, seen => by
    simp [map_with_lines, uncovered_to_tuple_enc,
      map_with_lines_uncovered fn cs, covExpected]

theorem map_with_lines_empty (fn : String) :
    ∀ (cs : List CovLoc) (seen : List Int),
      map_with_lines (empty_to_tuple fn) (cs.map encCovLoc) seen =
        .ok (covExpected fn "Code is not covered by Flow (empty type)" seen cs)
  | [], _ => rfl
  | c :: cs, seen => by
    simp [map_with_lines, empty_to_tuple_enc,
      map_with_lines_empty fn cs, covExpected]

theorem truthy_encLoc (l : FlowLoc) : truthy (encLoc l) = locTruthy l := by
  obtain ⟨s, st, en⟩ := l
  cases s <;> cases st <;> cases en <;> rfl

/-! ### Claims -/

set_option maxRecDepth 400000 in
/-- C1: the claim says `find_errors` never lets an exception reach the
caller, in particular on a well-formed two-element `[check, coverage]`
document whose error object has no `operation` key and an empty `message`
list.  The code disagrees: on exactly that document, line 106 evaluates
`error_messages[0]` on the empty list and the consumer of the returned lazy
sequence gets an `IndexError`. -/
theorem find_errors_c1_raises_IndexError :
    find_errors "f.js" c1input = .error .indexError := rfl

set_option maxRecDepth 400000 in
/-- C2 (counterexample): on scenario A the produced diagnostic's `near` is
`'""'` (a quoted empty slice), not the quoted context character `'"x"'`
asserted by the claim: the context string `"x"` has no characters in the
slice `[2:4]`. -/
theorem find_errors_scenarioA_near_not_quoted_x :
    find_errors "f.js" c2input =
      .ok [⟨.bool true, .num 1, .num 2, .str "InferError", .bool false,
            .str "bad", .str "\"\""⟩] ∧
      JVal.str "\"\"" ≠ JVal.str "\"x\"" :=
  ⟨rfl, fun h => by injection h with h'; exact absurd h' (by decide)⟩

set_option maxRecDepth 400000 in
/-- C2 (amended): on scenario A, `find_errors` yields exactly one diagnostic
with `file_matches = true`, `line = 1`, `column = 2`,
`is_error = "InferError"`, `is_warning = false`, `message = "bad"`, and
`near = '""'` — the quoted slice is empty because the one-character context
`"x"` is shorter than the reported column span `[2:4]`. -/
theorem find_errors_scenarioA :
    find_errors "f.js" c2input =
      .ok [⟨.bool true, .num 1, .num 2, .str "InferError", .bool false,
            .str "bad", .str "\"\""⟩] := rfl

/-- C3 (counterexample): a zero input is passed through as the number 0,
not as null: `to_zero_based(0, 0) = (0, 0)`. -/
theorem to_zero_based_zero_not_null :
    to_zero_based (.num 0) (.num 0) = .ok (.num 0, .num 0) ∧
      JVal.num 0 ≠ JVal.null :=
  ⟨rfl, fun h => JVal.noConfusion h⟩

/-- C3 (amended): the conversion subtracts 1 from a present non-zero line
and column, maps `(1,1)` to `(0,0)`, passes absent (null) inputs through as
null, and passes a zero input through unchanged as the number 0 (not as
null): falsy values are simply not decremented. -/
theorem to_zero_based_spec (l c : Option Int) :
    to_zero_based (encOptInt l) (encOptInt c) =
      .ok (zeroBased l, zeroBased c) := by
  have key : ∀ o : Option Int, decr_if_truthy (encOptInt o) = .ok (zeroBased o) := by
    intro o
    cases o with
    | none => rfl
    | some n =>
      by_cases hn : n = 0
      · simp [hn, decr_if_truthy, encOptInt, zeroBased, truthy, pySub]
      · simp [hn, decr_if_truthy, encOptInt, zeroBased, truthy, pySub]
  simp [to_zero_based, key]

/-- C9: a valid JSON document whose top-level value is an array of length
other than 2 makes the two-element unpacking raise `ValueError`, which the
same `except ValueError` handler catches: `find_errors` returns the empty
list rather than raising. -/
theorem find_errors_wrong_arity (fn s : String) (xs : List JVal)
    (hp : json_loads s = some (.arr xs)) (hn : xs.length ≠ 2) :
    find_errors fn s = .ok [] := by
  unfold find_errors
  rw [hp]
  cases xs with
  | nil => rfl
  | cons a t =>
    cases t with
    | nil => rfl
    | cons b t2 =>
      cases t2 with
      | nil => exact absurd rfl hn
      | cons c t3 => rfl

/-- C9 (witness): the three-element document `[1, 2, 3]`. -/
theorem find_errors_wrong_arity_witness :
    find_errors "f.js" "[1, 2, 3]" = .ok [] :=
  find_errors_wrong_arity "f.js" "[1, 2, 3]" [.num 1, .num 2, .num 3] rfl
    (by decide)

set_option maxRecDepth 400000 in
/-- C4 (counterexample): for an error whose only candidate message points
at another file, the emitted placeholder diagnostic carries `line = 0` and
`column = 0` — numbers, not the null positional fields the claim asserts. -/
theorem error_to_tuple_unmatched_line_zero :
    error_to_tuple "f.js" (encErr e4) =
      .ok ⟨.bool false, .num 0, .num 0, .bool false, .bool false, .str "",
           .null⟩ ∧
      JVal.num 0 ≠ JVal.null :=
  ⟨rfl, fun h => JVal.noConfusion h⟩

theorem pyGet_empty_obj (k : String) : pyGet (.obj []) k = .ok .null := rfl

theorem pyIndex_arr_zero (x : JVal) (xs : List JVal) :
    pyIndex (.arr (x :: xs)) 0 = .ok x := rfl

theorem truthy_null : truthy .null = false := rfl

theorem encMsg_pyGet_loc (m : FlowMessage) :
    pyGet (encMsg m) "loc" = .ok ((m.loc.map encLoc).getD .null) :=
  encMsg_get_loc m _

/-- C4 (amended): when no candidate message (operation, message list, or
extra tree) matches the current filename, `_error_to_tuple` emits the
placeholder `(False, 0, 0, False, False, '', None)` — filtered out, with
positions 0 rather than null — provided line 106 does not crash first,
i.e. the operation has a truthy location or the message list is non-empty
(with no operation location and an empty message list, the code instead
raises `IndexError`). -/
theorem error_to_tuple_unmatched (fn : String) (e : RawError)
    (hnm : ∀ m ∈ candidateList e, msgMatches fn m = false)
    (hsafe : opLocPresent e = true ∨ e.message ≠ []) :
    error_to_tuple fn (encErr e) = .ok placeholderDiag := by
  have hfind : find_matching_msg_for_file fn (encErr e) = .ok none := by
    rw [find_matching_enc]
    have hf : (candidateList e).find? (msgMatches fn) = none :=
      List.find?_eq_none.mpr (fun x hx => by simp [hnm x hx])
    rw [hf]
    rfl
  rcases hsafe with hA | hB
  · cases hop : e.operation with
    | none => simp [opLocPresent, hop] at hA
    | some op =>
      cases hl : op.loc with
      | none => simp [opLocPresent, hop, hl] at hA
      | some l =>
        have ht : locTruthy l = true := by
          simpa [opLocPresent, hop, hl] using hA
        simp [error_to_tuple, encErr_get_message, encErr_get_operation, hop,
          encMsg_pyGet_loc, hl, truthy_encLoc, ht, hfind]
  · cases hm : e.message with
    | nil => exact absurd hm hB
    | cons m ms =>
      cases hop : e.operation with
      | none =>
        simp [error_to_tuple, encErr_get_message, encErr_get_operation, hop,
          pyGet_empty_obj, truthy_null, hm, pyIndex_arr_zero,
          encMsg_get_loc, hfind]
      | some op =>
        cases hol : op.loc with
        | none =>
          simp [error_to_tuple, encErr_get_message, encErr_get_operation,
            hop, encMsg_pyGet_loc, hol, truthy_null, hm, pyIndex_arr_zero,
            encMsg_get_loc, hfind]
        | some l =>
          cases ht : locTruthy l with
          | true =>
            simp [error_to_tuple, encErr_get_message, encErr_get_operation,
              hop, encMsg_pyGet_loc, hol, truthy_encLoc, ht, hfind]
          | false =>
            simp [error_to_tuple, encErr_get_message, encErr_get_operation,
              hop, encMsg_pyGet_loc, hol, truthy_encLoc, ht, hm,
              pyIndex_arr_zero, encMsg_get_loc, hfind]

/-- C4 (witness): the error `e4`, whose single message names `other.js`
while the current file is `f.js`. -/
theorem error_to_tuple_unmatched_witness :
    error_to_tuple "f.js" (encErr e4) = .ok placeholderDiag :=
  error_to_tuple_unmatched "f.js" e4 (by decide)
    (Or.inr (by simp [e4]))

/-- C5: the message whose location determines the diagnostic's position is
the first element, in order, of the concatenation of the `operation`
message (when present), the `message` list, and the depth-first traversal
of `extra` (each node's own messages before its children), whose location's
source equals the current filename. -/
theorem find_matching_first_candidate (fn : String) (e : RawError) :
    find_matching_msg_for_file fn (encErr e) =
      .ok (((candidateList e).find? (msgMatches fn)).map encMsg) :=
  find_matching_enc fn e

set_option maxRecDepth 400000 in
/-- C6 (counterexample): the matched message `m6` has start line 0 and end
line 1 — a span whose end line differs from its start line — yet its
diagnostic's `near` is non-null: the code compares the *converted* start
line (0, left undecremented because it is falsy) with `end line - 1 = 0`.
The last conjunct exhibits `m6`'s location (start line 0, end line 1). -/
theorem near_nonnull_on_unequal_lines :
    error_to_tuple "f.js" (encErr e6) =
      .ok ⟨.bool true, .num 0, .num 0, .str "K", .bool false, .str "d",
           .str "\"ab\""⟩ ∧
    JVal.str "\"ab\"" ≠ JVal.null ∧
    m6.loc = some ⟨some "f.js", some ⟨some 0, some 1⟩,
                   some ⟨some 1, some 2⟩⟩ :=
  ⟨rfl, fun h => JVal.noConfusion h, rfl⟩

theorem encPos_pyGet_column (p : FlowPos) :
    pyGet (encPos p) "column" = .ok ((p.column.map JVal.num).getD .null) :=
  encPos_get_column p _

theorem encPos_pyGet_line (p : FlowPos) :
    pyGet (encPos p) "line" = .ok ((p.line.map JVal.num).getD .null) :=
  encPos_get_line p _

theorem pyEqJ_zeroBased (sl : Option Int) (z : Int) :
    pyEqJ (zeroBased sl) (.num z) = decide (zeroBasedInt sl = some z) := by
  cases sl with
  | none => simp [zeroBased, zeroBasedInt, pyEqJ]
  | some slv =>
    by_cases hz : slv = 0 <;> simp [zeroBased, zeroBasedInt, hz, pyEqJ]

/-- C6 (amended): for a matched message with context `ctx`, start position
`(sl, sc)` and end position `(el, ec)`, the `near` computation yields:
null when the end column is absent or zero; a `TypeError` when the end
column is truthy but the end line is absent; otherwise the quoted context
slice exactly when the *converted* start line equals `end line - 1`
(which for nonzero start lines means end line = start line, but a zero
start line is not decremented, shifting the comparison), and null when
that comparison fails. -/
theorem near_slice_characterization (ctx : String) (sl sc el ec : Option Int) :
    near_slice (.str ctx) (zeroBased sc) (encPos ⟨el, ec⟩) (zeroBased sl) =
      (match ec with
       | none => .ok .null
       | some ecn =>
         if ecn = 0 then .ok .null
         else
           match el with
           | none => .error .typeError
           | some eln =>
             if zeroBasedInt sl = some (eln - 1) then
               (pySlice ctx (zeroBased sc) (.num ecn)).map
                 (fun s => .str ("\"" ++ s ++ "\""))
             else .ok .null) := by
  cases ec with
  | none => simp [near_slice, encPos_pyGet_column, truthy_null]
  | some ecn =>
    by_cases hecn : ecn = 0
    · subst hecn
      simp [near_slice, encPos_pyGet_column, truthy]
    · cases el with
      | none =>
        simp [near_slice, encPos_pyGet_column, encPos_pyGet_line, truthy,
          hecn, pySub]
      | some eln =>
        by_cases hsl : zeroBasedInt sl = some (eln - 1)
        · simp only [near_slice, encPos_pyGet_column, encPos_pyGet_line,
            Option.map_some', Option.getD_some, ok_bind, truthy, pySub,
            pyEqJ_zeroBased, hsl]
          simp only [bne_iff_ne, ne_eq, hecn, not_false_eq_true, if_true,
            decide_True, if_pos trivial]
          cases sc with
          | none => simp [zeroBased, pySlice, sliceBound, Except.map]
          | some scv =>
            by_cases hscz : scv = 0 <;>
              simp [zeroBased, hscz, pySlice, sliceBound, Except.map]
        · simp [near_slice, encPos_pyGet_column, encPos_pyGet_line, truthy,
            hecn, pySub, pyEqJ_zeroBased, hsl]

/-- C7: within one `find_errors` call, each coverage category keeps its own
fresh seen-line set: the first location on a given 0-based start line gets
the descriptive message (`(any type)` for uncovered, `(empty type)` for
empty) and records the line; every later location on a seen line of the
same category gets the ditto placeholder at its own column; the two
categories never share their sets, so a line occurring in both gets the
descriptive message in each. -/
theorem find_errors_coverage_dedup (fn : String) (uncs emps : List CovLoc) :
    find_errors_parsed fn (.obj [("errors", .arr []), ("passed", .bool false)])
      (.obj [("expressions",
        .obj [("uncovered_locs", .arr (uncs.map encCovLoc)),
              ("empty_locs", .arr (emps.map encCovLoc))])]) =
      .ok (covExpected fn "Code is not covered by Flow (any type)" [] uncs ++
           covExpected fn "Code is not covered by Flow (empty type)" [] emps)
    := by
  simp [find_errors_parsed, pyGetD, jlookup, pyLen, pyIter,
    map_with_lines_uncovered, map_with_lines_empty, List.mapM.loop]

set_option maxRecDepth 400000 in
/-- C8 (counterexample): the error-pipeline diagnostic for `m8` (span from
column 2 to column 4 on one line, context `"abcdef"`) has
`near = '"bcd"'` of length 5, while the reported span covers
`4 - (2 - 1) = 3` characters: the two wrapping quote characters make the
length differ from the span. -/
theorem near_length_not_span :
    error_to_tuple "f.js" (encErr e8) =
      .ok ⟨.bool true, .num 0, .num 1, .str "K", .bool false, .str "d",
           .str "\"bcd\""⟩ ∧
    ("\"bcd\"" : String).length = 5 ∧
    (5 : Int) ≠ 4 - (2 - 1) :=
  ⟨rfl, rfl, by decide⟩

/-- C8 (amended): the length invariant holds for the two coverage
pipelines — their `near` is a space run of length
`max(end.offset - start.offset, 0)` — but not for the error pipeline,
whose `near` is the context slice wrapped in two quote characters, so its
length is the slice's length plus 2 (and the slice itself may be shorter
than the span when the context string is shorter than the end column). -/
theorem near_length_spec (fn : String) (c : CovLoc) (seen : List Int)
    (ctx : String) (sc : Option Int) (eln ecn : Int) (hecn : ecn ≠ 0) :
    uncovered_to_tuple fn (encCovLoc c) seen =
      .ok (covDiag fn "Code is not covered by Flow (any type)" seen c,
           covSeenUpdate seen c) ∧
    empty_to_tuple fn (encCovLoc c) seen =
      .ok (covDiag fn "Code is not covered by Flow (empty type)" seen c,
           covSeenUpdate seen c) ∧
    (covDiag fn "Code is not covered by Flow (any type)" seen c).near =
      .str (String.mk (List.replicate
        (c.stop.offset - c.start.offset).toNat ' ')) ∧
    (String.mk (List.replicate
        (c.stop.offset - c.start.offset).toNat ' ')).length =
      (c.stop.offset - c.start.offset).toNat ∧
    (∀ s : String,
      near_slice (.str ctx) (zeroBased sc) (encPos ⟨some eln, some ecn⟩)
          (.num (eln - 1)) = .ok (.str s) →
      ∃ body, s = "\"" ++ body ++ "\"" ∧ s.length = body.length + 2) := by
  refine ⟨uncovered_to_tuple_enc fn c seen, empty_to_tuple_enc fn c seen,
    rfl, ?_, ?_⟩
  · simp [String.length]
  · intro s hs
    obtain ⟨body, hbody⟩ :
        ∃ body, pySlice ctx (zeroBased sc) (.num ecn) = .ok body := by
      cases sc with
      | none => exact ⟨_, rfl⟩
      | some scv =>
        by_cases hscz : scv = 0
        · rw [show zeroBased (some scv) = JVal.num 0 from by
            simp [zeroBased, hscz]]
          exact ⟨_, rfl⟩
        · rw [show zeroBased (some scv) = JVal.num (scv - 1) from by
            simp [zeroBased, hscz]]
          exact ⟨_, rfl⟩
    have hns : near_slice (.str ctx) (zeroBased sc)
        (encPos ⟨some eln, some ecn⟩) (.num (eln - 1)) =
        .ok (.str ("\"" ++ body ++ "\"")) := by
      simp [near_slice, encPos_pyGet_column, encPos_pyGet_line, truthy,
        hecn, pySub, pyEqJ, hbody]
    rw [hns] at hs
    injection hs with hs1
    injection hs1 with hs2
    refine ⟨body, hs2.symm, ?_⟩
    have h1 : ("\"" : String).length = 1 := rfl
    rw [← hs2, String.length_append, String.length_append, h1]
    omega

/-- C8 (witness): a coverage location spanning offsets 10-14 and the error
span of `m8` (columns 2-4, context `"abcdef"`) whose `near` is
`'"bcd"'`. -/
theorem near_length_spec_witness :
    uncovered_to_tuple "f.js"
        (encCovLoc ⟨some "f.js", ⟨3, 1, 10⟩, ⟨3, 5, 14⟩⟩) [] =
      .ok (covDiag "f.js" "Code is not covered by Flow (any type)" []
             ⟨some "f.js", ⟨3, 1, 10⟩, ⟨3, 5, 14⟩⟩,
           covSeenUpdate [] ⟨some "f.js", ⟨3, 1, 10⟩, ⟨3, 5, 14⟩⟩) ∧
    (∃ body, ("\"bcd\"" : String) = "\"" ++ body ++ "\"" ∧
       ("\"bcd\"" : String).length = body.length + 2) :=
  ⟨(near_length_spec "f.js" ⟨some "f.js", ⟨3, 1, 10⟩, ⟨3, 5, 14⟩⟩ []
      "abcdef" (some 2) 1 4 (by decide)).1,
   (near_length_spec "f.js" ⟨some "f.js", ⟨3, 1, 10⟩, ⟨3, 5, 14⟩⟩ []
      "abcdef" (some 2) 1 4 (by decide)).2.2.2.2 "\"bcd\"" rfl⟩

/-- C10: coverage de-duplication is keyed by the 0-based start line alone:
two locations with the same start line but different `source` values still
make the second one a ditto placeholder, in each category, even though its
`file_matches` flag is computed from its own source. -/
theorem coverage_dedup_line_only (fn : String) (c1 c2 : CovLoc)
    (hline : c1.start.line = c2.start.line)
    (_hsrc : c1.source ≠ c2.source) :
    map_with_lines (uncovered_to_tuple fn) [encCovLoc c1, encCovLoc c2] [] =
      .ok [covDiag fn "Code is not covered by Flow (any type)" [] c1,
           ⟨.bool (covSourceMatches fn c2), .num (c2.start.line - 1),
            .num (c2.start.column - 1), .bool false, .str "coverage",
            .str "〃",
            .str (String.mk (List.replicate
              (c2.stop.offset - c2.start.offset).toNat ' '))⟩] ∧
    map_with_lines (empty_to_tuple fn) [encCovLoc c1, encCovLoc c2] [] =
      .ok [covDiag fn "Code is not covered by Flow (empty type)" [] c1,
           ⟨.bool (covSourceMatches fn c2), .num (c2.start.line - 1),
            .num (c2.start.column - 1), .bool false, .str "coverage",
            .str "〃",
            .str (String.mk (List.replicate
              (c2.stop.offset - c2.start.offset).toNat ' '))⟩] := by
  constructor
  · simp only [map_with_lines, uncovered_to_tuple_enc, ok_bind]
    simp [covDiag, covSeenUpdate, hline]
  · simp only [map_with_lines, empty_to_tuple_enc, ok_bind]
    simp [covDiag, covSeenUpdate, hline]

/-- C10 (witness): two locations on (1-based) line 3, one in `f.js` and one
in `g.js`, linted against `f.js`. -/
theorem coverage_dedup_line_only_witness :
    map_with_lines (uncovered_to_tuple "f.js")
      [encCovLoc ⟨some "f.js", ⟨3, 1, 0⟩, ⟨3, 2, 5⟩⟩,
       encCovLoc ⟨some "g.js", ⟨3, 7, 10⟩, ⟨3, 9, 12⟩⟩] [] =
      .ok [covDiag "f.js" "Code is not covered by Flow (any type)" []
             ⟨some "f.js", ⟨3, 1, 0⟩, ⟨3, 2, 5⟩⟩,
           ⟨.bool false, .num 2, .num 6, .bool false, .str "coverage",
            .str "〃", .str "  "⟩] ∧
    map_with_lines (empty_to_tuple "f.js")
      [encCovLoc ⟨some "f.js", ⟨3, 1, 0⟩, ⟨3, 2, 5⟩⟩,
       encCovLoc ⟨some "g.js", ⟨3, 7, 10⟩, ⟨3, 9, 12⟩⟩] [] =
      .ok [covDiag "f.js" "Code is not covered by Flow (empty type)" []
             ⟨some "f.js", ⟨3, 1, 0⟩, ⟨3, 2, 5⟩⟩,
           ⟨.bool false, .num 2, .num 6, .bool false, .str "coverage",
            .str "〃", .str "  "⟩] :=
  coverage_dedup_line_only "f.js" ⟨some "f.js", ⟨3, 1, 0⟩, ⟨3, 2, 5⟩⟩
    ⟨some "g.js", ⟨3, 7, 10⟩, ⟨3, 9, 12⟩⟩ rfl (by decide)
